import Mathlib

/-!
A shallow embedding of the session/tab orchestration layer of
`src/browser_core.py` (class BrowserSessionManager, the HTTP endpoints and
the websocket streaming loop), together with proofs of the specification
claims about it.

Python dicts are insertion ordered, and the code relies on that order
(`next(iter(tabs.keys()))` picks the first remaining key).  We therefore
model a dict as an association list in insertion order:

  * assignment `d[k] = v` is `insertD` (update in place if the key exists,
    else append at the end);
  * `d.pop(k)` / `del d[k]` is `removeD`;
  * `d.get(k)` is `lookupD`.

Timestamps are `Nat` seconds; engine handles (pages, contexts) are opaque
`Nat` identifiers — the engine itself is an external collaborator.
-/

namespace BrowserCore

/-- Dict lookup: value of the first (hence, with unique keys: the) binding
of a key. -/
def lookupD {β : Type} (k : String) : List (String × β) → Option β
  | [] => none
  | (k', v) :: rest => if k' = k then some v else lookupD k rest

/-- Dict deletion: drop the binding of a key (no-op when absent). -/
def removeD {β : Type} (k : String) : List (String × β) → List (String × β)
  | [] => []
  | (k', v) :: rest => if k' = k then rest else (k', v) :: removeD k rest

/-- Dict assignment: replace the binding in place when the key exists,
else append the new binding at the end (Python insertion order). -/
def insertD {β : Type} (k : String) (v : β) : List (String × β) → List (String × β)
  | [] => [(k, v)]
  | (k', v') :: rest => if k' = k then (k, v) :: rest else (k', v') :: insertD k v rest

/-- A Tab record, as built by `create_session` / `create_tab`:
`{"page": ..., "created_at": ..., "last_used": ..., "history": [],
"history_index": -1}`. -/
structure Tab where
  page : Nat
  created_at : Nat
  last_used : Nat
  history : List String
  history_index : Int
  deriving Repr, DecidableEq

instance {e a : Type} [DecidableEq e] [DecidableEq a] : DecidableEq (Except e a) :=
  fun x y =>
  match x, y with
  | .error u, .error v =>
    if h : u = v then isTrue (by rw [h]) else isFalse (fun hc => h (by cases hc; rfl))
  | .error _, .ok _ => isFalse (fun hc => Except.noConfusion hc)
  | .ok _, .error _ => isFalse (fun hc => Except.noConfusion hc)
  | .ok u, .ok v =>
    if h : u = v then isTrue (by rw [h]) else isFalse (fun hc => h (by cases hc; rfl))

/-- The Tab record registered for a fresh tab: empty history, cursor -1. -/
def freshTab (page now : Nat) : Tab :=
  { page := page, created_at := now, last_used := now, history := [], history_index := -1 }

/-- The documented history-cursor invariant:
`-1 ≤ history cursor < length(history)`. -/
def Tab.inv (t : Tab) : Prop :=
  -1 ≤ t.history_index ∧ t.history_index < (t.history.length : Int)

instance (t : Tab) : Decidable t.inv := by
  unfold Tab.inv; infer_instance

/-- Python list slice `l[: n]` with a possibly negative bound: a negative
bound counts from the end, clamped at zero. -/
def pySliceTo {α : Type} (l : List α) (n : Int) : List α :=
  if 0 ≤ n then l.take n.toNat else l.take (l.length - n.natAbs)

/-- The history update run after a successful recording navigation:
`tab["history"] = tab["history"][: tab["history_index"] + 1]`,
`tab["history"].append(u)`, `tab["history_index"] = len(tab["history"]) - 1`. -/
def histUpdate (t : Tab) (u : String) : Tab :=
  let h := pySliceTo t.history (t.history_index + 1)
  { t with history := h ++ [u], history_index := ((h ++ [u]).length : Int) - 1 }

/-- `go_back` on a tab: acts only when `history_index > 0`, else reports
the boundary status `no_history`.  Returns the updated tab and the
`status` field of the response. -/
def goBack (t : Tab) : Tab × String :=
  if 0 < t.history_index then
    ({ t with history_index := t.history_index - 1 }, "success")
  else (t, "no_history")

/-- `go_forward` on a tab: acts only when `history_index < len(history) - 1`,
else reports the boundary status `no_forward_history`. -/
def goForward (t : Tab) : Tab × String :=
  if t.history_index < (t.history.length : Int) - 1 then
    ({ t with history_index := t.history_index + 1 }, "success")
  else (t, "no_forward_history")

/-- `refresh` reloads the page handle and does not touch the tab record. -/
def refreshTab (t : Tab) : Tab := t

/-- Split a character list at the first occurrence of a separator
(Python `s.split(sep, 1)` when it returns two parts). -/
def splitFirst (c : Char) : List Char → Option (List Char × List Char)
  | [] => none
  | x :: rest =>
    if x = c then some ([], rest)
    else
      match splitFirst c rest with
      | none => none
      | some (l, r) => some (x :: l, r)

/-- Split a character list at every occurrence of a separator
(Python `s.split(sep)`). -/
def splitAll (c : Char) : List Char → List (List Char)
  | [] => [[]]
  | x :: rest =>
    match splitAll c rest with
    | [] => [[]]
    | y :: ys => if x = c then [] :: y :: ys else (x :: y) :: ys

/-- Python `str.lower()`, character-wise (ASCII case folding; the URLs
these helpers classify are ASCII). -/
def lowerChars (l : List Char) : List Char := l.map Char.toLower

/-- `_is_internal`: the URL matches the case-insensitive pattern
`^chrome://`. -/
def isInternal (url : String) : Bool :=
  "chrome://".data.isPrefixOf (lowerChars url.data)

/-- The query component of a URL, as `urllib.parse.urlparse` extracts it:
drop the fragment (everything from the first `#`), then take everything
after the first `?` (empty when there is none). -/
def urlQueryChars (url : List Char) : List Char :=
  let noFrag :=
    match splitFirst '#' url with
    | some (l, _) => l
    | none => url
  match splitFirst '?' noFrag with
  | some (_, q) => q
  | none => []

/-- Python `str.strip()`: drop whitespace from both ends. -/
def pyStripChars (l : List Char) : List Char :=
  ((l.dropWhile Char.isWhitespace).reverse.dropWhile Char.isWhitespace).reverse

/-- Python `str.strip()` on a string. -/
def pyStrip (s : String) : String :=
  String.mk (pyStripChars s.data)

/-- Value of a single hex digit, as `urllib.parse.unquote` accepts them. -/
def hexDigit (c : Char) : Option Nat :=
  if '0' ≤ c ∧ c ≤ '9' then some (c.toNat - '0'.toNat)
  else if 'a' ≤ c ∧ c ≤ 'f' then some (c.toNat - 'a'.toNat + 10)
  else if 'A' ≤ c ∧ c ≤ 'F' then some (c.toNat - 'A'.toNat + 10)
  else none

/-- `urllib.parse.unquote_plus`: `+` becomes a space and `%XY` hex
escapes are decoded; malformed escapes are left as-is.  (Modelled
byte-wise; multi-byte UTF-8 unescaping is not claim-relevant.) -/
def unquotePlusChars : List Char → List Char
  | [] => []
  | '%' :: a :: b :: rest =>
    match hexDigit a, hexDigit b with
    | some x, some y => Char.ofNat (16 * x + y) :: unquotePlusChars rest
    | _, _ => '%' :: unquotePlusChars (a :: b :: rest)
  | '+' :: rest => ' ' :: unquotePlusChars rest
  | c :: rest => c :: unquotePlusChars rest

/-- `urllib.parse.parse_qs(query)["q"]`: split the query on `&`; a part
without `=` or with an empty value is dropped (`keep_blank_values` is
false); names and values are unquoted; keep the values bound to `q`. -/
def parseQsQVals (query : List Char) : List (List Char) :=
  (splitAll '&' query).filterMap fun part =>
    match splitFirst '=' part with
    | none => none
    | some (k, v) =>
      if v = [] then none
      else if unquotePlusChars k = ['q'] then some (unquotePlusChars v) else none

/-- `_parse_internal_search`: `None` unless the URL (case-insensitively)
starts with `chrome://search`; else the first `q` query value (or `""`),
stripped. -/
def parseInternalSearch (url : String) : Option String :=
  if url = "" then none
  else if ¬ "chrome://search".data.isPrefixOf (lowerChars url.data) then none
  else some (String.mk (pyStripChars ((parseQsQVals (urlQueryChars url.data)).headD [])))

/-- One item of the external search response, as the renderer reads it
(`it.get("title")`, `it.get("link")`, `it.get("snippet")`,
`it.get("displayLink")`, each defaulted to `""`). -/
structure SearchItem where
  title : String
  link : String
  snippet : String
  displayLink : String
  deriving Repr, DecidableEq

/-- Outcome of `_google_cse_search`: either the parsed JSON (its `items`
list, defaulted to `[]`, and the `searchInformation.totalResults` string,
defaulted to `"0"`), or any raised exception (missing credentials,
non-2xx status via `raise_for_status`, timeout, network error). -/
inductive ApiResult where
  | ok (items : List SearchItem) (total : String)
  | err (msg : String)
  deriving Repr, DecidableEq

/-- The renderer's local `esc` helper: HTML-escape `&`, `<`, `>`, `"`,
in that order. -/
def escHtml (s : String) : String :=
  (((s.replace "&" "&amp;").replace "<" "&lt;").replace ">" "&gt;").replace "\"" "&quot;"

/-- The `google_url` built in the fallback branch:
`f"https://www.google.com/search?q={httpx.QueryParams({'q': safe_q}).get('q')}"`;
`QueryParams(...).get('q')` returns the stored (decoded) value itself. -/
def googleSearchUrl (safe_q : String) : String :=
  "https://www.google.com/search?q=" ++ safe_q

/-- Text of the fallback page before the `esc(google_url)` interpolation
(the source f-string renders `\x7b\x7b` as a brace and a doubled
backslash before a quote as a literal backslash-quote). -/
def fallbackPageOpen : String :=
  "<!doctype html>\n" ++
  "<html>\n" ++
  "<head>\n" ++
  "  <meta charset=\\\"utf-8\\\" />\n" ++
  "  <meta name=\\\"viewport\\\" content=\\\"width=device-width, initial-scale=1\\\" />\n" ++
  "  <title>Search</title>\n" ++
  "  <style>\n" ++
  "    body \x7b background:#0b0b0f; color:#e4e4e7; font-family: ui-sans-serif, system-ui; padding: 24px; \x7d\n" ++
  "    a \x7b color:#38bdf8; \x7d\n" ++
  "    .card \x7b background: rgba(39,39,42,.6); border: 1px solid rgba(63,63,70,.6); border-radius: 16px; padding: 16px; \x7d\n" ++
  "    .muted \x7b color:#a1a1aa; \x7d\n" ++
  "  </style>\n" ++
  "</head>\n" ++
  "<body>\n" ++
  "  <div class=\\\"card\\\">\n" ++
  "    <h2 style=\\\"margin:0 0 8px 0\\\">Search temporarily unavailable</h2>\n" ++
  "    <p class=\\\"muted\\\" style=\\\"margin:0 0 12px 0\\\">Google CSE API request failed. You can still open the web search directly:</p>\n" ++
  "    <a href=\\\""

/-- Text of the fallback page after the `esc(google_url)` interpolation. -/
def fallbackPageClose : String :=
  "\\\" target=\\\"_blank\\\">Open Google search</a>\n" ++
  "  </div>\n" ++
  "</body>\n" ++
  "</html>"

/-- The static fallback page returned when `_google_cse_search` raises:
it embeds a direct (HTML-escaped) link to a conventional Google web
search on the query. -/
def fallbackPage (safe_q : String) : String :=
  fallbackPageOpen ++ escHtml (googleSearchUrl safe_q) ++ fallbackPageClose

/-- One rendered result row of the success branch. -/
def resultRow (it : SearchItem) : String :=
  "\n      <div class=\\\"result\\\">\n" ++
  "        <a class=\\\"title\\\" href=\\\"" ++ escHtml it.link ++ "\\\">" ++ escHtml it.title ++ "</a>\n" ++
  "        <div class=\\\"meta\\\">" ++ escHtml it.displayLink ++ "</div>\n" ++
  "        <div class=\\\"snippet\\\">" ++ escHtml it.snippet ++ "</div>\n" ++
  "      </div>\n            "

/-- The joined rows (the source's separator literal is a backslash-newline
line continuation, i.e. the empty string), or the `No results` placeholder
row.  Line 149 of the source mis-escapes the quotes of that placeholder
literal (a syntax slip); we model the evident intent, with the
backslash-quote convention the surrounding f-strings produce. -/
def resultsHtml (items : List SearchItem) : String :=
  match items with
  | [] => "<div class=\\\"muted\\\">No results</div>"
  | _ => String.join (items.map resultRow)

/-- The success-branch results page. -/
def resultsPage (safe_q : String) (items : List SearchItem) (total : String) : String :=
  "<!doctype html>\n" ++
  "<html>\n" ++
  "<head>\n" ++
  "  <meta charset=\\\"utf-8\\\" />\n" ++
  "  <meta name=\\\"viewport\\\" content=\\\"width=device-width, initial-scale=1\\\" />\n" ++
  "  <title>Search: " ++ escHtml safe_q ++ "</title>\n" ++
  "  <style>\n" ++
  "    body \x7b background:#0b0b0f; color:#e4e4e7; font-family: ui-sans-serif, system-ui; margin:0; \x7d\n" ++
  "    .topbar \x7b padding: 16px 20px; border-bottom: 1px solid rgba(63,63,70,.6); background: rgba(24,24,27,.8); position: sticky; top: 0; \x7d\n" ++
  "    .q \x7b font-size: 18px; font-weight: 700; margin: 0; \x7d\n" ++
  "    .sub \x7b margin: 6px 0 0 0; color:#a1a1aa; font-size: 12px; \x7d\n" ++
  "    .wrap \x7b padding: 18px 20px 28px 20px; \x7d\n" ++
  "    .result \x7b padding: 14px 14px; border: 1px solid rgba(63,63,70,.6); border-radius: 14px; background: rgba(39,39,42,.35); margin-bottom: 12px; \x7d\n" ++
  "    .title \x7b display:block; font-weight: 700; color:#38bdf8; text-decoration:none; \x7d\n" ++
  "    .title:hover \x7b text-decoration: underline; \x7d\n" ++
  "    .meta \x7b color:#34d399; font-size: 12px; margin-top: 6px; overflow:hidden; text-overflow: ellipsis; white-space:nowrap; \x7d\n" ++
  "    .snippet \x7b color:#d4d4d8; font-size: 13px; margin-top: 8px; line-height: 1.35; \x7d\n" ++
  "    .muted \x7b color:#a1a1aa; \x7d\n" ++
  "  </style>\n" ++
  "</head>\n" ++
  "<body>\n" ++
  "  <div class=\\\"topbar\\\">\n" ++
  "    <p class=\\\"q\\\">" ++ escHtml safe_q ++ "</p>\n" ++
  "    <p class=\\\"sub\\\">About " ++ escHtml total ++ " results (via Custom Search)</p>\n" ++
  "  </div>\n" ++
  "  <div class=\\\"wrap\\\">\n" ++
  "    " ++ resultsHtml items ++ "\n" ++
  "  </div>\n" ++
  "</body>\n" ++
  "</html>"

/-- `_render_search_results_html`: strip the query; on any search-API
failure return the static fallback page instead of raising; else render
the results page.  Total — it returns a page for every input. -/
def renderSearchResultsHtml (query : String) (api : ApiResult) : String :=
  let safe_q := pyStrip query
  match api with
  | .err _ => fallbackPage safe_q
  | .ok items total => resultsPage safe_q items total

/-- What the engine does with a `page.goto` call: either it completes,
reporting the final URL after redirects (`page.url`) and the page title,
or it raises. -/
inductive EngineNav where
  | ok (finalUrl : String) (title : String)
  | err (msg : String)
  deriving Repr, DecidableEq

/-- The static placeholder written for internal URLs outside the search
sub-scheme. -/
def placeholderHtml : String :=
  "<html><body style=\x27background:#0b0b0f;color:#e4e4e7;font-family:system-ui;padding:24px\x27>" ++
  "<h2>Internal page</h2><p>This page is not implemented.</p></body></html>"

/-- Observable outcome of a successful HTTP `navigate` call: the updated
tab record, the response's `status`, `url` and `title` fields, and the
HTML written by `page.set_content` when the URL was internal. -/
structure NavOutcome where
  tab : Tab
  status : String
  respUrl : String
  title : String
  setContent : Option String
  deriving Repr, DecidableEq

/-- The HTTP `navigate` endpoint's effect on the resolved tab.
Internal search URLs render via `_render_search_results_html` (never
raising), record the original virtual URL and answer `navigated`;
other internal URLs write the placeholder and answer `navigated`
WITHOUT touching the history; external URLs run `page.goto` — a raise
becomes a 500 error, a completion records the engine-reported final URL.
`page.set_content` on a live page is modelled as succeeding. -/
def navigateHttp (t : Tab) (url : String) (api : ApiResult) (engine : EngineNav) :
    Except String NavOutcome :=
  if isInternal url then
    match parseInternalSearch url with
    | some q =>
      .ok { tab := histUpdate t url, status := "navigated", respUrl := url,
            title := "Search: " ++ q, setContent := some (renderSearchResultsHtml q api) }
    | none =>
      .ok { tab := t, status := "navigated", respUrl := url,
            title := "Internal page", setContent := some placeholderHtml }
  else
    match engine with
    | .err msg => .error msg
    | .ok finalUrl title =>
      .ok { tab := histUpdate t finalUrl, status := "navigated", respUrl := finalUrl,
            title := title, setContent := none }

/-- The streaming `navigate` command's effect on the target tab: on
success (internal of either kind, or a completed `page.goto`) it appends
`url if _is_internal(url) else page.url`; a raised navigation exception
is caught, reported as a scoped error and leaves the history untouched.
Returns the tab and whether the navigation completed. -/
def navigateWs (t : Tab) (url : String) (_api : ApiResult) (engine : EngineNav) :
    Tab × Bool :=
  if isInternal url then
    (histUpdate t url, true)
  else
    match engine with
    | .err _ => (t, false)
    | .ok finalUrl _ => (histUpdate t finalUrl, true)

/-- One navigate operation, through either entry point. -/
inductive NavEvent where
  | http (url : String) (api : ApiResult) (engine : EngineNav)
  | ws (url : String) (api : ApiResult) (engine : EngineNav)
  deriving Repr, DecidableEq

/-- Run one navigate operation on a tab; `some` exactly when it completes
successfully. -/
def navEventRun (t : Tab) : NavEvent → Option Tab
  | .http url api engine =>
    match navigateHttp t url api engine with
    | .ok o => some o.tab
    | .error _ => none
  | .ws url api engine =>
    match navigateWs t url api engine with
    | (t', true) => some t'
    | (_, false) => none

/-- The URL a navigate operation records in the history when it
completes: the original virtual URL for internal pages, else the
engine-reported final URL; `none` for a failing engine navigation and
for the HTTP endpoint's internal non-search branch, which returns
before the history code. -/
def NavEvent.appendedUrl : NavEvent → Option String
  | .http url _ engine =>
    if isInternal url then
      (if (parseInternalSearch url).isSome then some url else none)
    else
      match engine with
      | .ok f _ => some f
      | .err _ => none
  | .ws url _ engine =>
    if isInternal url then some url
    else
      match engine with
      | .ok f _ => some f
      | .err _ => none

/-- Run a sequence of navigate operations; `some` when all complete. -/
def navigateSeq (t : Tab) : List NavEvent → Option Tab
  | [] => some t
  | e :: rest =>
    match navEventRun t e with
    | some t' => navigateSeq t' rest
    | none => none

/-- A Session record as stored in `self.sessions`: engine context handle,
tab dict, active-tab pointer, timestamps.  (The per-session asyncio lock
serializes the operations modelled here and has no data content.) -/
structure Session where
  context : Nat
  tabs : List (String × Tab)
  active_tab_id : Option String
  created_at : Nat
  last_used : Nat
  deriving Repr, DecidableEq

/-- The active-pointer invariant, decidably: if any tab exists, the
active-tab pointer names a live tab of the session. -/
def Session.activeOk (s : Session) : Bool :=
  s.tabs.isEmpty ||
    (match s.active_tab_id with
     | none => false
     | some a => (lookupD a s.tabs).isSome)

/-- The Session record registered by `create_session`, holding exactly
the one initial tab, which is active. -/
def newSession (ctx : Nat) (tid : String) (page now : Nat) : Session :=
  { context := ctx, tabs := [(tid, freshTab page now)], active_tab_id := some tid,
    created_at := now, last_used := now }

/-- `create_tab` under the session lock: register a fresh Tab, make it
active, bump the session activity timestamp. -/
def createTab (s : Session) (tid : String) (page now : Nat) : Session :=
  { s with tabs := insertD tid (freshTab page now) s.tabs,
           active_tab_id := some tid, last_used := now }

/-- `close_tab` at session scope: absent tab is an error; pop the tab
(the page handle is closed best-effort); with no tabs left the session
cascades away (`none`); else repoint the active pointer to the first
remaining tab when the closed tab was active, and bump activity. -/
def closeTabSession (s : Session) (tid : String) (now : Nat) :
    Except String (Option Session) :=
  if (lookupD tid s.tabs).isNone then .error "Tab not found"
  else
    let tabs' := removeD tid s.tabs
    if tabs' = [] then .ok none
    else .ok (some { s with
      tabs := tabs',
      active_tab_id :=
        if s.active_tab_id = some tid then (tabs'.head?.map Prod.fst) else s.active_tab_id,
      last_used := now })

/-- `activate_tab`: absent tab is an error; else set the active pointer
and bump session and tab activity timestamps. -/
def activateTab (s : Session) (tid : String) (now : Nat) : Except String Session :=
  match lookupD tid s.tabs with
  | none => .error "Tab not found"
  | some tab =>
    .ok { s with active_tab_id := some tid, last_used := now,
                 tabs := insertD tid { tab with last_used := now } s.tabs }

/-- The tab sweep of `_cleanup_idle` for one session: iterate over a
snapshot of the tab dict; a tab whose idle time exceeds the tab TTL is
closed only when the LIVE tab dict still holds more than one tab, the
active pointer being repointed to the first remaining key when it named
the closed tab.  (Every tab record of this code carries `last_used`, so
the `or`-chain defaulting reads it.) -/
def sweepGo (now ttl : Nat) : List (String × Tab) → Session → Session
  | [], s => s
  | (tid, tab) :: rest, s =>
    if ttl < now - tab.last_used ∧ 1 < s.tabs.length then
      let tabs' := removeD tid s.tabs
      sweepGo now ttl rest
        { s with
          tabs := tabs',
          active_tab_id :=
            if s.active_tab_id = some tid then tabs'.head?.map Prod.fst else s.active_tab_id }
    else sweepGo now ttl rest s

/-- The per-session tab-TTL sweep step of the idle reaper. -/
def sweepSessionTabs (now ttl : Nat) (s : Session) : Session :=
  sweepGo now ttl s.tabs s

/-- `close_session`: best-effort context close, then drop the session
from the registry (idempotent). -/
def closeSessionM (m : List (String × Session)) (sid : String) :
    List (String × Session) :=
  removeD sid m

/-- `close_tab` at registry scope: resolve the session (absent is an
error), run the session-scoped close; an emptied session cascades into
`close_session`, else the updated session is stored back. -/
def closeTabM (m : List (String × Session)) (sid tid : String) (now : Nat) :
    Except String (List (String × Session)) :=
  match lookupD sid m with
  | none => .error "Session not found"
  | some s =>
    match closeTabSession s tid now with
    | .error e => .error e
    | .ok none => .ok (closeSessionM m sid)
    | .ok (some s') => .ok (insertD sid s' m)

/-- `create_session`: register a fresh Session with exactly one initial
tab and return `(session_id, first_tab_id)`. -/
def createSessionM (m : List (String × Session)) (sid : String) (ctx : Nat)
    (tid : String) (page now : Nat) : List (String × Session) × String × String :=
  (insertD sid (newSession ctx tid page now) m, sid, tid)

/-- Registry-level invariant: every registered session owns at least one
tab. -/
def sessionsNonempty (m : List (String × Session)) : Bool :=
  m.all fun p => !p.2.tabs.isEmpty

/-- The deduplicating `send_state` closure of the websocket endpoint,
run over a sequence of requested states from a given `last_sent_state`:
a request equal to the last sent state sends nothing; otherwise the
state is recorded and its notification sent.  Returns the states
actually sent, in order. -/
def sendStateRun : Option String → List String → List String
  | _, [] => []
  | last, s :: rest =>
    if some s = last then sendStateRun last rest
    else s :: sendStateRun (some s) rest

/-- The states sent over one connection, which opens with
`last_sent_state = None`. -/
def sentStates (reqs : List String) : List String :=
  sendStateRun none reqs

/-! ## Dictionary lemmas -/

theorem lookupD_insertD_self {β : Type} (k : String) (v : β) (l : List (String × β)) :
    lookupD k (insertD k v l) = some v := by
  induction l with
  | nil => simp [insertD, lookupD]
  | cons p rest ih =>
    by_cases h : p.1 = k
    · simp [insertD, lookupD, h]
    · simp [insertD, lookupD, h, ih]

theorem lookupD_removeD_ne {β : Type} {k k' : String} (h : k ≠ k')
    (l : List (String × β)) : lookupD k (removeD k' l) = lookupD k l := by
  induction l with
  | nil => simp [removeD]
  | cons p rest ih =>
    by_cases hp : p.1 = k'
    · simp [removeD, lookupD, hp, Ne.symm h, ih]
    · by_cases hk : p.1 = k
      · simp [removeD, lookupD, hp, hk, h, ih]
      · simp [removeD, lookupD, hp, hk, ih]

theorem length_removeD_ge {β : Type} (k : String) (l : List (String × β)) :
    l.length - 1 ≤ (removeD k l).length := by
  induction l with
  | nil => simp [removeD]
  | cons p rest ih =>
    by_cases hp : p.1 = k
    · simp [removeD, hp]
    · simp only [removeD, hp, if_false, List.length_cons]
      omega

theorem removeD_ne_nil {β : Type} (k : String) {l : List (String × β)}
    (h : 1 < l.length) : removeD k l ≠ [] := by
  have := length_removeD_ge k l
  intro hnil
  rw [hnil] at this
  simp at this
  omega

theorem mem_removeD {β : Type} {p : String × β} {k : String}
    {l : List (String × β)} (h : p ∈ removeD k l) : p ∈ l := by
  induction l with
  | nil => simp [removeD] at h
  | cons q rest ih =>
    by_cases hq : q.1 = k
    · simp [removeD, hq] at h
      exact List.mem_cons_of_mem q h
    · simp only [removeD, hq, if_false, List.mem_cons] at h
      rcases h with h | h
      · exact h ▸ List.mem_cons_self q rest
      · exact List.mem_cons_of_mem q (ih h)

theorem mem_insertD {β : Type} {p : String × β} {k : String} {v : β}
    {l : List (String × β)} (h : p ∈ insertD k v l) : p = (k, v) ∨ p ∈ l := by
  induction l with
  | nil => simpa [insertD] using h
  | cons q rest ih =>
    by_cases hq : q.1 = k
    · simp only [insertD, hq, if_true, List.mem_cons] at h
      rcases h with h | h
      · exact Or.inl h
      · exact Or.inr (List.mem_cons_of_mem q h)
    · simp only [insertD, hq, if_false, List.mem_cons] at h
      rcases h with h | h
      · exact Or.inr (h ▸ List.mem_cons_self q rest)
      · rcases ih h with h | h
        · exact Or.inl h
        · exact Or.inr (List.mem_cons_of_mem q h)

theorem lookupD_head {β : Type} {l : List (String × β)} {p : String × β}
    (h : l.head? = some p) : lookupD p.1 l = some p.2 := by
  cases l with
  | nil => simp at h
  | cons q rest =>
    simp at h
    subst h
    simp [lookupD]

/-! ## History lemmas -/

theorem histUpdate_inv (t : Tab) (u : String) : (histUpdate t u).inv := by
  unfold histUpdate Tab.inv
  constructor
  · simp
    omega
  · simp

theorem histUpdate_history (t : Tab) (u : String) (h : -1 ≤ t.history_index) :
    (histUpdate t u).history =
      t.history.take (t.history_index + 1).toNat ++ [u] ∧
    (histUpdate t u).history_index = ((histUpdate t u).history.length : Int) - 1 := by
  have hn : (0 : Int) ≤ t.history_index + 1 := by omega
  unfold histUpdate pySliceTo
  simp [hn]

theorem histUpdate_atTip (t : Tab) (u : String)
    (h : t.history_index = (t.history.length : Int) - 1) :
    (histUpdate t u).history = t.history ++ [u] ∧
    (histUpdate t u).history_index = ((t.history.length : Int) + 1) - 1 := by
  have h1 : -1 ≤ t.history_index := by omega
  obtain ⟨h2, h3⟩ := histUpdate_history t u h1
  have h4 : (t.history_index + 1).toNat = t.history.length := by omega
  rw [h4, List.take_length] at h2
  refine ⟨h2, ?_⟩
  rw [h3, h2]
  simp

theorem goBack_inv {t : Tab} (h : t.inv) : (goBack t).1.inv := by
  have h1 := h.1
  have h2 := h.2
  unfold goBack
  split_ifs with hc
  · constructor
    · show -1 ≤ t.history_index - 1
      omega
    · show t.history_index - 1 < (t.history.length : Int)
      omega
  · exact h

theorem goForward_inv {t : Tab} (h : t.inv) : (goForward t).1.inv := by
  have h1 := h.1
  unfold goForward
  split_ifs with hc
  · constructor
    · show -1 ≤ t.history_index + 1
      omega
    · show t.history_index + 1 < (t.history.length : Int)
      omega
  · exact h

/-- Branch equation: HTTP navigation to an internal search URL. -/
theorem navigateHttp_search (t : Tab) (url q : String) (api : ApiResult)
    (engine : EngineNav) (hi : isInternal url = true)
    (hq : parseInternalSearch url = some q) :
    navigateHttp t url api engine =
      .ok { tab := histUpdate t url, status := "navigated", respUrl := url,
            title := "Search: " ++ q,
            setContent := some (renderSearchResultsHtml q api) } := by
  unfold navigateHttp
  rw [if_pos hi, hq]

/-- Branch equation: HTTP navigation to an internal non-search URL
answers `navigated` but leaves the tab record untouched. -/
theorem navigateHttp_placeholder (t : Tab) (url : String) (api : ApiResult)
    (engine : EngineNav) (hi : isInternal url = true)
    (hq : parseInternalSearch url = none) :
    navigateHttp t url api engine =
      .ok { tab := t, status := "navigated", respUrl := url,
            title := "Internal page", setContent := some placeholderHtml } := by
  unfold navigateHttp
  rw [if_pos hi, hq]

/-- Branch equation: HTTP navigation to an external URL whose engine
navigation completes. -/
theorem navigateHttp_external (t : Tab) (url f ti : String) (api : ApiResult)
    (hi : isInternal url = false) :
    navigateHttp t url api (.ok f ti) =
      .ok { tab := histUpdate t f, status := "navigated", respUrl := f,
            title := ti, setContent := none } := by
  unfold navigateHttp
  rw [if_neg (by simp [hi])]

/-- Branch equation: HTTP navigation whose engine navigation raises
becomes a 500 error. -/
theorem navigateHttp_external_err (t : Tab) (url m : String) (api : ApiResult)
    (hi : isInternal url = false) :
    navigateHttp t url api (.err m) = .error m := by
  unfold navigateHttp
  rw [if_neg (by simp [hi])]

/-- Branch equation: streaming navigation to an internal URL (search or
not) records the original virtual URL. -/
theorem navigateWs_internal (t : Tab) (url : String) (api : ApiResult)
    (engine : EngineNav) (hi : isInternal url = true) :
    navigateWs t url api engine = (histUpdate t url, true) := by
  unfold navigateWs
  rw [if_pos hi]

/-- Branch equation: streaming navigation to an external URL whose
engine navigation completes records the engine-reported final URL. -/
theorem navigateWs_external (t : Tab) (url f ti : String) (api : ApiResult)
    (hi : isInternal url = false) :
    navigateWs t url api (.ok f ti) = (histUpdate t f, true) := by
  unfold navigateWs
  rw [if_neg (by simp [hi])]

/-- Branch equation: a raised streaming navigation is caught and leaves
the tab untouched. -/
theorem navigateWs_external_err (t : Tab) (url m : String) (api : ApiResult)
    (hi : isInternal url = false) :
    navigateWs t url api (.err m) = (t, false) := by
  unfold navigateWs
  rw [if_neg (by simp [hi])]

/-- A navigate operation, through either entry point, either leaves the
tab record unchanged or performs the history truncate-append step. -/
theorem navEventRun_cases {t t' : Tab} {e : NavEvent}
    (h : navEventRun t e = some t') : t' = t ∨ ∃ u, t' = histUpdate t u := by
  cases e with
  | http url api engine =>
    simp only [navEventRun] at h
    cases hi : isInternal url with
    | true =>
      cases hq : parseInternalSearch url with
      | some q =>
        rw [navigateHttp_search t url q api engine hi hq] at h
        simp at h
        exact Or.inr ⟨url, h.symm⟩
      | none =>
        rw [navigateHttp_placeholder t url api engine hi hq] at h
        simp at h
        exact Or.inl h.symm
    | false =>
      cases engine with
      | err m => rw [navigateHttp_external_err t url m api hi] at h; simp at h
      | ok f ti =>
        rw [navigateHttp_external t url f ti api hi] at h
        simp at h
        exact Or.inr ⟨f, h.symm⟩
  | ws url api engine =>
    simp only [navEventRun] at h
    cases hi : isInternal url with
    | true =>
      rw [navigateWs_internal t url api engine hi] at h
      simp at h
      exact Or.inr ⟨url, h.symm⟩
    | false =>
      cases engine with
      | err m => rw [navigateWs_external_err t url m api hi] at h; simp at h
      | ok f ti =>
        rw [navigateWs_external t url f ti api hi] at h
        simp at h
        exact Or.inr ⟨f, h.symm⟩

theorem sendStateRun_chain (reqs : List String) (last : Option String) :
    List.Chain' (fun a b => a ≠ b) (sendStateRun last reqs) ∧
    ∀ x, (sendStateRun last reqs).head? = some x → some x ≠ last := by
  induction reqs generalizing last with
  | nil => simp [sendStateRun]
  | cons s rest ih =>
    by_cases h : some s = last
    · rw [show sendStateRun last (s :: rest) = sendStateRun last rest from by
        simp [sendStateRun, h]]
      exact ih last
    · rw [show sendStateRun last (s :: rest) = s :: sendStateRun (some s) rest from by
        simp [sendStateRun, h]]
      constructor
      · rw [List.chain'_cons']
        refine ⟨?_, (ih (some s)).1⟩
        intro b hb
        have hne := (ih (some s)).2 b hb
        intro hsb
        exact hne (by rw [hsb])
      · intro x hx
        simp at hx
        rw [← hx]
        exact h

/-! ## Claim theorems -/

/-- C4: every operation that touches a tab's history — tab creation,
navigate through either entry point with any outcome, back, forward,
refresh — preserves the invariant `-1 ≤ history cursor < length(history)`;
a freshly created tab has empty history and cursor -1. -/
theorem tab_history_cursor_invariant (page now : Nat) (t t' : Tab) (e : NavEvent)
    (h : t.inv) :
    ((freshTab page now).history = [] ∧ (freshTab page now).history_index = -1 ∧
      (freshTab page now).inv) ∧
    (navEventRun t e = some t' → t'.inv) ∧
    (goBack t).1.inv ∧ (goForward t).1.inv ∧ (refreshTab t).inv := by
  refine ⟨⟨rfl, rfl, by constructor <;> simp [freshTab]⟩, ?_, goBack_inv h,
    goForward_inv h, h⟩
  intro hrun
  rcases navEventRun_cases hrun with heq | ⟨u, heq⟩
  · exact heq ▸ h
  · exact heq ▸ histUpdate_inv t u

/-- Witness for C4 at concrete inputs: a fresh tab satisfies the
invariant, and so does the tab produced by a successful streaming
navigation from it. -/
theorem tab_history_cursor_invariant_witness :
    (freshTab 0 0).inv ∧
    Tab.inv { page := 0, created_at := 0, last_used := 0,
              history := ["https://b/"], history_index := 0 } := by
  have h := tab_history_cursor_invariant 0 0 (freshTab 0 0)
      { page := 0, created_at := 0, last_used := 0,
        history := ["https://b/"], history_index := 0 }
      (NavEvent.ws "https://b" (ApiResult.err "") (EngineNav.ok "https://b/" "B"))
      (by decide)
  exact ⟨h.1.2.2, h.2.1 (by decide)⟩

/-- C7: `back` at cursor ≤ 0 is a no-op reporting `no_history`, else it
decrements the cursor by one and reports `success`; `forward` at
cursor = length-1 is a no-op reporting `no_forward_history`, else it
increments the cursor by one and reports `success`; neither operation
changes the history list. -/
theorem back_forward_boundary_semantics (t : Tab) (h : t.inv) :
    (t.history_index ≤ 0 → goBack t = (t, "no_history")) ∧
    (¬ t.history_index ≤ 0 →
      goBack t = ({ t with history_index := t.history_index - 1 }, "success")) ∧
    (t.history_index = (t.history.length : Int) - 1 →
      goForward t = (t, "no_forward_history")) ∧
    (t.history_index ≠ (t.history.length : Int) - 1 →
      goForward t = ({ t with history_index := t.history_index + 1 }, "success")) ∧
    (goBack t).1.history = t.history ∧ (goForward t).1.history = t.history := by
  have h2 := h.2
  refine ⟨?_, ?_, ?_, ?_, ?_, ?_⟩
  · intro hc
    unfold goBack
    rw [if_neg (by omega)]
  · intro hc
    unfold goBack
    rw [if_pos (by omega)]
  · intro hc
    unfold goForward
    rw [if_neg (by omega)]
  · intro hc
    unfold goForward
    rw [if_pos (by omega)]
  · unfold goBack
    split_ifs <;> rfl
  · unfold goForward
    split_ifs <;> rfl

/-- Witness for C7 at a two-entry history: back from the tip and forward
from position 0 both act, and the opposite boundaries report their
distinct statuses. -/
theorem back_forward_boundary_semantics_witness :
    goBack { page := 0, created_at := 0, last_used := 0, history := ["a", "b"],
             history_index := 0 } =
      ({ page := 0, created_at := 0, last_used := 0, history := ["a", "b"],
         history_index := 0 }, "no_history") ∧
    goForward { page := 0, created_at := 0, last_used := 0, history := ["a", "b"],
                history_index := 0 } =
      ({ page := 0, created_at := 0, last_used := 0, history := ["a", "b"],
         history_index := 0 + 1 }, "success") ∧
    goBack { page := 0, created_at := 0, last_used := 0, history := ["a", "b"],
             history_index := 1 } =
      ({ page := 0, created_at := 0, last_used := 0, history := ["a", "b"],
         history_index := 1 - 1 }, "success") ∧
    goForward { page := 0, created_at := 0, last_used := 0, history := ["a", "b"],
                history_index := 1 } =
      ({ page := 0, created_at := 0, last_used := 0, history := ["a", "b"],
         history_index := 1 }, "no_forward_history") := by
  have h0 := back_forward_boundary_semantics
    { page := 0, created_at := 0, last_used := 0, history := ["a", "b"],
      history_index := 0 } (by decide)
  have h1 := back_forward_boundary_semantics
    { page := 0, created_at := 0, last_used := 0, history := ["a", "b"],
      history_index := 1 } (by decide)
  exact ⟨h0.1 (by decide), h0.2.2.2.1 (by decide), h1.2.1 (by decide),
    h1.2.2.1 (by decide)⟩

theorem lookupD_isSome_ne_nil {β : Type} {k : String} {l : List (String × β)}
    (h : (lookupD k l).isSome = true) : l ≠ [] := by
  intro hn
  subst hn
  simp [lookupD] at h

theorem not_isEmpty_of_ne_nil {α : Type} {l : List α} (h : l ≠ []) :
    l.isEmpty = false := by
  cases l with
  | nil => exact absurd rfl h
  | cons a r => rfl

theorem lookupD_eq_none_of_notMem {β : Type} {k : String} {l : List (String × β)}
    (h : k ∉ l.map Prod.fst) : lookupD k l = none := by
  induction l with
  | nil => rfl
  | cons p rest ih =>
    rw [List.map_cons] at h
    simp only [List.mem_cons, not_or] at h
    obtain ⟨h1, h2⟩ := h
    simp only [lookupD]
    rw [if_neg (fun he => h1 he.symm)]
    exact ih h2

theorem lookupD_removeD_self {β : Type} (k : String) (l : List (String × β))
    (hnd : (l.map Prod.fst).Nodup) : lookupD k (removeD k l) = none := by
  induction l with
  | nil => rfl
  | cons p rest ih =>
    rw [List.map_cons, List.nodup_cons] at hnd
    obtain ⟨hp, hrest⟩ := hnd
    by_cases hk : p.1 = k
    · simp only [removeD]
      rw [if_pos hk]
      exact lookupD_eq_none_of_notMem (hk ▸ hp)
    · simp only [removeD]
      rw [if_neg hk]
      simp only [lookupD]
      rw [if_neg hk]
      exact ih hrest

theorem insertD_ne_nil {β : Type} (k : String) (v : β) (l : List (String × β)) :
    insertD k v l ≠ [] := by
  cases l with
  | nil => simp [insertD]
  | cons p rest =>
    simp only [insertD]
    split_ifs <;> simp

/-- Branch equation: `close_tab` on an absent tab id. -/
theorem closeTabSession_absent (s : Session) (tid : String) (now : Nat)
    (h : lookupD tid s.tabs = none) :
    closeTabSession s tid now = Except.error "Tab not found" := by
  unfold closeTabSession
  rw [if_pos (by simp [h])]

/-- Branch equation: `close_tab` removing the last tab cascades. -/
theorem closeTabSession_cascade (s : Session) (tid : String) (now : Nat)
    (h : (lookupD tid s.tabs).isSome = true) (he : removeD tid s.tabs = []) :
    closeTabSession s tid now = Except.ok none := by
  unfold closeTabSession
  rw [if_neg (fun hc => by rw [Option.isNone_iff_eq_none.mp hc] at h; simp at h),
    if_pos he]

/-- Branch equation: `close_tab` with tabs remaining repoints the active
pointer to the first remaining key when the closed tab was active. -/
theorem closeTabSession_keep (s : Session) (tid : String) (now : Nat)
    (h : (lookupD tid s.tabs).isSome = true) (he : removeD tid s.tabs ≠ []) :
    closeTabSession s tid now = Except.ok (some { s with
      tabs := removeD tid s.tabs,
      active_tab_id :=
        if s.active_tab_id = some tid then ((removeD tid s.tabs).head?.map Prod.fst)
        else s.active_tab_id,
      last_used := now }) := by
  unfold closeTabSession
  rw [if_neg (fun hc => by rw [Option.isNone_iff_eq_none.mp hc] at h; simp at h),
    if_neg he]

/-- Branch equation: registry `close_tab` on an absent session id. -/
theorem closeTabM_noSession (m : List (String × Session)) (sid tid : String)
    (now : Nat) (hls : lookupD sid m = none) :
    closeTabM m sid tid now = Except.error "Session not found" := by
  unfold closeTabM
  rw [hls]

/-- Branch equation: registry `close_tab` propagating a tab error. -/
theorem closeTabM_err (m : List (String × Session)) (sid tid : String) (now : Nat)
    (s : Session) (e : String) (hls : lookupD sid m = some s)
    (hcs : closeTabSession s tid now = Except.error e) :
    closeTabM m sid tid now = Except.error e := by
  unfold closeTabM
  simp only [hls, hcs]

/-- Branch equation: registry `close_tab` cascading into `close_session`. -/
theorem closeTabM_cascade (m : List (String × Session)) (sid tid : String)
    (now : Nat) (s : Session) (hls : lookupD sid m = some s)
    (hcs : closeTabSession s tid now = Except.ok none) :
    closeTabM m sid tid now = Except.ok (closeSessionM m sid) := by
  unfold closeTabM
  simp only [hls, hcs]

/-- Branch equation: registry `close_tab` storing the updated session. -/
theorem closeTabM_keep (m : List (String × Session)) (sid tid : String) (now : Nat)
    (s s' : Session) (hls : lookupD sid m = some s)
    (hcs : closeTabSession s tid now = Except.ok (some s')) :
    closeTabM m sid tid now = Except.ok (insertD sid s' m) := by
  unfold closeTabM
  simp only [hls, hcs]

theorem activeOk_intro {s : Session} (a : String) (ha : s.active_tab_id = some a)
    (hl : (lookupD a s.tabs).isSome = true) : s.activeOk = true := by
  unfold Session.activeOk
  rw [ha]
  simp [hl]

theorem activeOk_elim {s : Session} (hok : s.activeOk = true) (hne : s.tabs ≠ []) :
    ∃ a, s.active_tab_id = some a ∧ (lookupD a s.tabs).isSome = true := by
  unfold Session.activeOk at hok
  rw [not_isEmpty_of_ne_nil hne] at hok
  simp only [Bool.false_or] at hok
  cases hA : s.active_tab_id with
  | none => rw [hA] at hok; simp at hok
  | some a => rw [hA] at hok; exact ⟨a, rfl, hok⟩

theorem head_lookupD_isSome {β : Type} {l : List (String × β)} (hne : l ≠ []) :
    ∃ a, l.head?.map Prod.fst = some a ∧ (lookupD a l).isSome = true := by
  cases l with
  | nil => exact absurd rfl hne
  | cons p r =>
    refine ⟨p.1, by simp, ?_⟩
    simp [lookupD]

/-- A surviving `close_tab` preserves the active-pointer invariant. -/
theorem closeTabSession_some_activeOk {s s' : Session} {tid : String} {now : Nat}
    (hok : s.activeOk = true)
    (hrun : closeTabSession s tid now = Except.ok (some s')) :
    s'.activeOk = true := by
  cases hlk : lookupD tid s.tabs with
  | none => rw [closeTabSession_absent s tid now hlk] at hrun; simp at hrun
  | some tb =>
    have hsome : (lookupD tid s.tabs).isSome = true := by rw [hlk]; rfl
    by_cases hemp : removeD tid s.tabs = []
    · rw [closeTabSession_cascade s tid now hsome hemp] at hrun; simp at hrun
    · rw [closeTabSession_keep s tid now hsome hemp] at hrun
      simp only [Except.ok.injEq, Option.some.injEq] at hrun
      subst hrun
      by_cases hact : s.active_tab_id = some tid
      · obtain ⟨a, ha, hla⟩ := head_lookupD_isSome hemp
        refine activeOk_intro a ?_ hla
        show (if s.active_tab_id = some tid then _ else _) = some a
        rw [if_pos hact]
        exact ha
      · obtain ⟨a, ha, hla⟩ := activeOk_elim hok (lookupD_isSome_ne_nil hsome)
        have hat : a ≠ tid := fun he => hact (he ▸ ha)
        refine activeOk_intro a ?_ ?_
        · show (if s.active_tab_id = some tid then _ else _) = some a
          rw [if_neg hact]
          exact ha
        · show (lookupD a (removeD tid s.tabs)).isSome = true
          rw [lookupD_removeD_ne hat]
          exact hla

/-- The reaper's tab sweep preserves the active-pointer invariant. -/
theorem sweepGo_activeOk (now ttl : Nat) (snap : List (String × Tab)) (s : Session)
    (hok : s.activeOk = true) : (sweepGo now ttl snap s).activeOk = true := by
  induction snap generalizing s with
  | nil => exact hok
  | cons p rest ih =>
    obtain ⟨tid, tab⟩ := p
    simp only [sweepGo]
    split_ifs with hc hact
    · refine ih _ ?_
      have hne : removeD tid s.tabs ≠ [] := removeD_ne_nil tid hc.2
      obtain ⟨a, ha, hla⟩ := head_lookupD_isSome hne
      exact activeOk_intro a ha hla
    · refine ih _ ?_
      have hsne : s.tabs ≠ [] := by
        intro h0
        rw [h0] at hc
        simp at hc
      obtain ⟨a, ha, hla⟩ := activeOk_elim hok hsne
      have hat : a ≠ tid := fun he => hact (he ▸ ha)
      refine activeOk_intro a ha ?_
      show (lookupD a (removeD tid s.tabs)).isSome = true
      rw [lookupD_removeD_ne hat]
      exact hla
    · exact ih s hok

/-- The reaper's tab sweep never acts on a session at one tab or fewer. -/
theorem sweepGo_small (now ttl : Nat) (snap : List (String × Tab)) (s : Session)
    (h : s.tabs.length ≤ 1) : sweepGo now ttl snap s = s := by
  induction snap with
  | nil => rfl
  | cons p rest ih =>
    obtain ⟨tid, tab⟩ := p
    simp only [sweepGo]
    rw [if_neg (fun hc => absurd hc.2 (by omega))]
    exact ih

/-- The reaper's tab sweep keeps at least one tab. -/
theorem sweepGo_tabs_ne_nil (now ttl : Nat) (snap : List (String × Tab)) (s : Session)
    (h : s.tabs ≠ []) : (sweepGo now ttl snap s).tabs ≠ [] := by
  induction snap generalizing s with
  | nil => exact h
  | cons p rest ih =>
    obtain ⟨tid, tab⟩ := p
    simp only [sweepGo]
    split_ifs with hc hact
    · exact ih _ (removeD_ne_nil tid hc.2)
    · exact ih _ (removeD_ne_nil tid hc.2)
    · exact ih s h

theorem sessionsNonempty_removeD (m : List (String × Session)) (k : String)
    (h : sessionsNonempty m = true) : sessionsNonempty (removeD k m) = true := by
  unfold sessionsNonempty at h ⊢
  rw [List.all_eq_true] at h ⊢
  intro p hp
  exact h p (mem_removeD hp)

theorem sessionsNonempty_insertD (m : List (String × Session)) (k : String)
    (s' : Session) (h : sessionsNonempty m = true) (hs' : s'.tabs ≠ []) :
    sessionsNonempty (insertD k s' m) = true := by
  unfold sessionsNonempty at h ⊢
  rw [List.all_eq_true] at h ⊢
  intro p hp
  rcases mem_insertD hp with hp' | hp'
  · subst hp'
    simp [not_isEmpty_of_ne_nil hs']
  · exact h p hp'

/-- A successful navigate operation with a recorded URL performs exactly
the history truncate-append step with that URL. -/
theorem navEventRun_appended {t t' : Tab} {e : NavEvent} {u : String}
    (hrun : navEventRun t e = some t') (hu : e.appendedUrl = some u) :
    t' = histUpdate t u := by
  cases e with
  | http url api engine =>
    simp only [navEventRun] at hrun
    cases hi : isInternal url with
    | true =>
      cases hq : parseInternalSearch url with
      | some q =>
        rw [navigateHttp_search t url q api engine hi hq] at hrun
        simp only [NavEvent.appendedUrl, hi, hq] at hu
        simp at hrun hu
        rw [← hrun, ← hu]
      | none =>
        simp only [NavEvent.appendedUrl, hi, hq] at hu
        simp at hu
    | false =>
      cases engine with
      | err m =>
        simp only [NavEvent.appendedUrl, hi] at hu
        simp at hu
      | ok f ti =>
        rw [navigateHttp_external t url f ti api hi] at hrun
        simp only [NavEvent.appendedUrl, hi] at hu
        simp at hrun hu
        rw [← hrun, ← hu]
  | ws url api engine =>
    simp only [navEventRun] at hrun
    cases hi : isInternal url with
    | true =>
      rw [navigateWs_internal t url api engine hi] at hrun
      simp only [NavEvent.appendedUrl, hi] at hu
      simp at hrun hu
      rw [← hrun, ← hu]
    | false =>
      cases engine with
      | err m =>
        simp only [NavEvent.appendedUrl, hi] at hu
        simp at hu
      | ok f ti =>
        rw [navigateWs_external t url f ti api hi] at hrun
        simp only [NavEvent.appendedUrl, hi] at hu
        simp at hrun hu
        rw [← hrun, ← hu]

/-- Running recorded navigations from a tab whose cursor sits at the tip
grows the history by one entry each and keeps the cursor at the tip. -/
theorem navigateSeq_len (evs : List NavEvent) (t tk : Tab)
    (ht : t.history_index = (t.history.length : Int) - 1)
    (hseq : navigateSeq t evs = some tk)
    (hall : ∀ e ∈ evs, (NavEvent.appendedUrl e).isSome = true) :
    tk.history.length = t.history.length + evs.length ∧
    tk.history_index = (tk.history.length : Int) - 1 := by
  induction evs generalizing t with
  | nil =>
    simp [navigateSeq] at hseq
    subst hseq
    exact ⟨by simp, ht⟩
  | cons e rest ih =>
    simp only [navigateSeq] at hseq
    cases hr : navEventRun t e with
    | none => rw [hr] at hseq; simp at hseq
    | some t1 =>
      rw [hr] at hseq
      have happ := hall e (by simp)
      obtain ⟨u, hu⟩ := Option.isSome_iff_exists.mp happ
      have h1 : t1 = histUpdate t u := navEventRun_appended hr hu
      subst h1
      obtain ⟨hh, hidx⟩ := histUpdate_atTip t u ht
      have hlen : (histUpdate t u).history.length = t.history.length + 1 := by
        rw [hh]; simp
      have ht1 : (histUpdate t u).history_index =
          ((histUpdate t u).history.length : Int) - 1 := by
        rw [hidx, hlen]; push_cast; ring
      obtain ⟨hl, hi2⟩ := ih (histUpdate t u) ht1 hseq
        (fun e' he' => hall e' (List.mem_cons_of_mem e he'))
      refine ⟨?_, hi2⟩
      rw [hl, hlen]
      simp only [List.length_cons]
      omega

/-- C1 fails as stated on the code: the HTTP navigate endpoint completes
successfully on the internal non-search URL `chrome://flags` (status
`navigated`), yet the fresh target tab's history stays empty with cursor
-1 instead of receiving the URL. -/
theorem http_placeholder_navigation_skips_history :
    navigateHttp (freshTab 0 0) "chrome://flags" (ApiResult.err "") (EngineNav.ok "" "") =
      Except.ok { tab := freshTab 0 0, status := "navigated", respUrl := "chrome://flags",
                  title := "Internal page", setContent := some placeholderHtml } ∧
    (freshTab 0 0).history = [] ∧ (freshTab 0 0).history_index = -1 := by
  exact ⟨navigateHttp_placeholder _ _ _ _ (by decide) (by decide), rfl, rfl⟩

/-- C1 (amended): every successfully completing navigate operation that
records a URL — the streaming command for every URL, the HTTP endpoint
for internal search and external URLs, but not the HTTP endpoint's
internal non-search branch, which leaves history untouched — truncates
the tab's history to the cursor+1 prefix, appends the recorded URL (the
original virtual URL for internal pages, else the engine-reported final
URL) and sets the cursor to the new last index; consequently a fresh tab
reaches history length k and cursor k-1 after k such navigations with no
back/forward in between. -/
theorem navigate_history_model (t t' tk : Tab) (e : NavEvent) (u : String)
    (evs : List NavEvent) (p n : Nat)
    (h1 : -1 ≤ t.history_index)
    (hrun : navEventRun t e = some t')
    (hu : e.appendedUrl = some u)
    (hseq : navigateSeq (freshTab p n) evs = some tk)
    (hall : ∀ e' ∈ evs, (NavEvent.appendedUrl e').isSome = true) :
    t'.history = t.history.take (t.history_index + 1).toNat ++ [u] ∧
    t'.history_index = (t'.history.length : Int) - 1 ∧
    tk.history.length = evs.length ∧
    tk.history_index = (evs.length : Int) - 1 := by
  have he := navEventRun_appended hrun hu
  subst he
  obtain ⟨hh, hidx⟩ := histUpdate_history t u h1
  have hfresh : (freshTab p n).history_index =
      ((freshTab p n).history.length : Int) - 1 := by
    simp [freshTab]
  obtain ⟨hl, hi2⟩ := navigateSeq_len evs (freshTab p n) tk hfresh hseq hall
  refine ⟨hh, hidx, ?_, ?_⟩
  · simpa [freshTab] using hl
  · rw [hi2, hl]
    simp [freshTab]

/-- Witness for C1 (amended) at concrete inputs: navigating from a
non-tip cursor discards the forward entry before appending (history
`[a, b]`, cursor 0, navigate to an external URL resolving to
`https://d/` gives `[a, https://d/]`, cursor 1), and two successful
recorded navigations from a fresh tab give length 2, cursor 1. -/
theorem navigate_history_model_witness :
    (["a", "https://d/"] : List String) = ["a", "b"].take 1 ++ ["https://d/"] ∧
    (1 : Int) = ((["a", "https://d/"] : List String).length : Int) - 1 ∧
    (2 : Nat) = 2 ∧ (1 : Int) = (2 : Int) - 1 := by
  have h := navigate_history_model
    { page := 0, created_at := 0, last_used := 0, history := ["a", "b"], history_index := 0 }
    { page := 0, created_at := 0, last_used := 0, history := ["a", "https://d/"],
      history_index := 1 }
    { page := 0, created_at := 0, last_used := 0, history := ["v1", "chrome://search?q=x"],
      history_index := 1 }
    (NavEvent.ws "https://d" (ApiResult.err "") (EngineNav.ok "https://d/" ""))
    "https://d/"
    [NavEvent.ws "u1" (ApiResult.err "") (EngineNav.ok "v1" ""),
     NavEvent.http "chrome://search?q=x" (ApiResult.err "") (EngineNav.err "")]
    0 0
    (by decide) (by decide) (by decide) (by decide) (by decide)
  exact ⟨h.1, h.2.1, by rfl, h.2.2.2⟩

/-- C3: navigation to an internal search URL always completes: the HTTP
endpoint answers `navigated` with the rendered page for every search-API
outcome, the streaming command records it as a successful navigation,
any API failure renders the static fallback page, and that page embeds a
direct link to a conventional web search on the query. -/
theorem internal_search_never_fails (t : Tab) (url q : String) (api : ApiResult)
    (engine : EngineNav) (m : String)
    (hi : isInternal url = true) (hq : parseInternalSearch url = some q) :
    navigateHttp t url api engine =
      Except.ok { tab := histUpdate t url, status := "navigated", respUrl := url,
                  title := "Search: " ++ q,
                  setContent := some (renderSearchResultsHtml q api) } ∧
    navigateWs t url api engine = (histUpdate t url, true) ∧
    renderSearchResultsHtml q (ApiResult.err m) = fallbackPage (pyStrip q) ∧
    (∃ pre suf, fallbackPage (pyStrip q) =
      pre ++ escHtml (googleSearchUrl (pyStrip q)) ++ suf) := by
  exact ⟨navigateHttp_search t url q api engine hi hq,
    navigateWs_internal t url api engine hi, rfl,
    ⟨fallbackPageOpen, fallbackPageClose, rfl⟩⟩

/-- Witness for C3: navigating to `chrome://search?q=hello` with a
failing search API still answers `navigated`, rendering the fallback
page, which links to the conventional web search on `hello`. -/
theorem internal_search_never_fails_witness :
    navigateHttp (freshTab 0 0) "chrome://search?q=hello" (ApiResult.err "boom")
        (EngineNav.err "net down") =
      Except.ok { tab := histUpdate (freshTab 0 0) "chrome://search?q=hello",
                  status := "navigated", respUrl := "chrome://search?q=hello",
                  title := "Search: hello",
                  setContent := some (renderSearchResultsHtml "hello" (ApiResult.err "boom")) } ∧
    renderSearchResultsHtml "hello" (ApiResult.err "boom") = fallbackPage "hello" ∧
    (∃ pre suf, fallbackPage "hello" =
      pre ++ escHtml (googleSearchUrl "hello") ++ suf) := by
  have h := internal_search_never_fails (freshTab 0 0) "chrome://search?q=hello" "hello"
    (ApiResult.err "boom") (EngineNav.err "net down") "boom" (by decide) (by decide)
  exact ⟨h.1, h.2.2.1, h.2.2.2⟩

/-- C2: `close_tab` preserves the invariant that every registered session
owns at least one tab — removing a session's last remaining tab removes
the session itself from the registry — and `create_session` registers
only sessions with a tab, so a session with zero tabs is never
observable. -/
theorem session_never_empty (m m' : List (String × Session))
    (sid tid sid2 tid2 : String) (ctx page now : Nat)
    (hnd : (m.map Prod.fst).Nodup)
    (hinv : sessionsNonempty m = true)
    (hrun : closeTabM m sid tid now = Except.ok m') :
    sessionsNonempty m' = true ∧
    sessionsNonempty (createSessionM m sid2 ctx tid2 page now).1 = true ∧
    (∀ s, lookupD sid m = some s → removeD tid s.tabs = [] →
      lookupD sid m' = none) := by
  have hcreate : sessionsNonempty (createSessionM m sid2 ctx tid2 page now).1 = true :=
    sessionsNonempty_insertD m sid2 _ hinv (by simp [newSession])
  cases hls : lookupD sid m with
  | none => rw [closeTabM_noSession m sid tid now hls] at hrun; simp at hrun
  | some s =>
    cases hcs : closeTabSession s tid now with
    | error e => rw [closeTabM_err m sid tid now s e hls hcs] at hrun; simp at hrun
    | ok r =>
      cases r with
      | none =>
        rw [closeTabM_cascade m sid tid now s hls hcs] at hrun
        simp only [Except.ok.injEq] at hrun
        subst hrun
        refine ⟨sessionsNonempty_removeD m sid hinv, hcreate, ?_⟩
        intro s0 hs0 hrm
        exact lookupD_removeD_self sid m hnd
      | some s' =>
        rw [closeTabM_keep m sid tid now s s' hls hcs] at hrun
        simp only [Except.ok.injEq] at hrun
        subst hrun
        have hs' : s'.tabs ≠ [] := by
          cases hlk : lookupD tid s.tabs with
          | none => rw [closeTabSession_absent s tid now hlk] at hcs; simp at hcs
          | some tb =>
            have hsome : (lookupD tid s.tabs).isSome = true := by rw [hlk]; rfl
            by_cases hemp : removeD tid s.tabs = []
            · rw [closeTabSession_cascade s tid now hsome hemp] at hcs
              simp at hcs
            · rw [closeTabSession_keep s tid now hsome hemp] at hcs
              simp only [Except.ok.injEq, Option.some.injEq] at hcs
              rw [← hcs]
              exact hemp
        refine ⟨sessionsNonempty_insertD m sid s' hinv hs', hcreate, ?_⟩
        intro s0 hs0 hrm
        simp only [Option.some.injEq] at hs0
        subst hs0
        cases hlk : lookupD tid s.tabs with
        | none => rw [closeTabSession_absent s tid now hlk] at hcs; simp at hcs
        | some tb =>
          have hsome : (lookupD tid s.tabs).isSome = true := by rw [hlk]; rfl
          rw [closeTabSession_cascade s tid now hsome hrm] at hcs
          simp at hcs

/-- Witness for C2: closing the sole tab of a one-tab session yields a
registry without the session (and still only nonempty sessions), and
creating a new session keeps the registry invariant. -/
theorem session_never_empty_witness :
    sessionsNonempty ([] : List (String × Session)) = true ∧
    sessionsNonempty
      (createSessionM
        [("s1", (⟨0, [("t1", freshTab 0 0)], some "t1", 0, 0⟩ : Session))]
        "s2" 0 "t2" 0 5).1 = true ∧
    lookupD "s1" ([] : List (String × Session)) = none := by
  have h := session_never_empty
    [("s1", (⟨0, [("t1", freshTab 0 0)], some "t1", 0, 0⟩ : Session))] []
    "s1" "t1" "s2" "t2" 0 0 5 (by decide) (by decide) (by decide)
  exact ⟨h.1, h.2.1,
    h.2.2 (⟨0, [("t1", freshTab 0 0)], some "t1", 0, 0⟩ : Session)
      (by decide) (by decide)⟩

/-- C5: every tab-set mutation keeps the active-tab pointer on a live tab
whenever the session has a tab: `create_tab` activates the new tab, a
surviving `close_tab` repoints when needed, the idle reaper's tab sweep
repoints after removing the active tab, and `activate_tab` rejects
absent tab ids. -/
theorem active_pointer_valid (s s1 s2 : Session) (tid tid2 tid3 : String)
    (page now ttl : Nat)
    (hok : s.activeOk = true) :
    (createTab s tid page now).activeOk = true ∧
    (closeTabSession s tid now = Except.ok (some s1) → s1.activeOk = true) ∧
    (sweepSessionTabs now ttl s).activeOk = true ∧
    (activateTab s tid2 now = Except.ok s2 → s2.activeOk = true) ∧
    (lookupD tid3 s.tabs = none →
      activateTab s tid3 now = Except.error "Tab not found") := by
  refine ⟨?_, ?_, sweepGo_activeOk now ttl s.tabs s hok, ?_, ?_⟩
  · refine activeOk_intro tid rfl ?_
    show (lookupD tid (insertD tid (freshTab page now) s.tabs)).isSome = true
    rw [lookupD_insertD_self]
    rfl
  · exact closeTabSession_some_activeOk hok
  · intro hrun
    unfold activateTab at hrun
    cases hlk : lookupD tid2 s.tabs with
    | none => rw [hlk] at hrun; simp at hrun
    | some tb =>
      rw [hlk] at hrun
      simp only [Except.ok.injEq] at hrun
      subst hrun
      refine activeOk_intro tid2 rfl ?_
      show (lookupD tid2 (insertD tid2 _ s.tabs)).isSome = true
      rw [lookupD_insertD_self]
      rfl
  · intro habs
    unfold activateTab
    rw [habs]

/-- Witness for C5 at a two-tab session with `t1` active: creating `t3`
activates it, closing active `t1` repoints to `t2`, the reaper sweep
keeps a valid pointer, activating `t2` keeps a valid pointer, and an
absent id is rejected. -/
theorem active_pointer_valid_witness :
    (createTab (⟨0, [("t1", freshTab 0 0), ("t2", freshTab 0 0)], some "t1", 0, 0⟩ : Session)
      "t3" 1 5).activeOk = true ∧
    Session.activeOk (⟨0, [("t2", freshTab 0 0)], some "t2", 0, 5⟩ : Session) = true ∧
    (sweepSessionTabs 1000 1
      (⟨0, [("t1", freshTab 0 0), ("t2", freshTab 0 0)], some "t1", 0, 0⟩ : Session)).activeOk
      = true ∧
    Session.activeOk
      (⟨0, [("t1", freshTab 0 0), ("t2", { freshTab 0 0 with last_used := 5 })], some "t2", 0, 5⟩ :
        Session) = true ∧
    activateTab (⟨0, [("t1", freshTab 0 0), ("t2", freshTab 0 0)], some "t1", 0, 0⟩ : Session)
      "zz" 5 = Except.error "Tab not found" := by
  have h := active_pointer_valid
    (⟨0, [("t1", freshTab 0 0), ("t2", freshTab 0 0)], some "t1", 0, 0⟩ : Session)
    (⟨0, [("t2", freshTab 0 0)], some "t2", 0, 5⟩ : Session)
    (⟨0, [("t1", freshTab 0 0), ("t2", { freshTab 0 0 with last_used := 5 })], some "t2", 0, 5⟩ :
      Session)
    "t1" "t2" "zz" 1 5 1000 (by decide)
  exact ⟨h.1, h.2.1 (by decide), h.2.2.1, h.2.2.2.1 (by decide), h.2.2.2.2 (by decide)⟩

/-- C6: `create_session` returns `(session_id, initial_tab_id)` and
registers a session holding exactly one tab, keyed by the initial tab
id, with empty history and cursor -1, and that tab is the active tab. -/
theorem create_session_initial_tab (m : List (String × Session)) (sid : String)
    (ctx : Nat) (tid : String) (page now : Nat) :
    (createSessionM m sid ctx tid page now).2 = (sid, tid) ∧
    lookupD sid (createSessionM m sid ctx tid page now).1 =
      some (newSession ctx tid page now) ∧
    (newSession ctx tid page now).tabs = [(tid, freshTab page now)] ∧
    lookupD tid (newSession ctx tid page now).tabs = some (freshTab page now) ∧
    (freshTab page now).history = [] ∧
    (freshTab page now).history_index = -1 ∧
    (newSession ctx tid page now).active_tab_id = some tid := by
  refine ⟨rfl, lookupD_insertD_self sid _ m, rfl, ?_, rfl, rfl, rfl⟩
  simp [newSession, lookupD]

/-- C8: the idle reaper's tab-TTL sweep closes a tab only while its
session still holds more than one tab: a session's sole tab is never
reaped regardless of idle time, and the sweep never leaves a session
with zero tabs. -/
theorem reaper_spares_sole_tab (now ttl : Nat) (s1 s2 : Session) (k : String)
    (t : Tab) (hone : s1.tabs = [(k, t)]) (hne : s2.tabs ≠ []) :
    sweepSessionTabs now ttl s1 = s1 ∧
    (sweepSessionTabs now ttl s2).tabs ≠ [] := by
  constructor
  · exact sweepGo_small now ttl s1.tabs s1 (by rw [hone]; rfl)
  · exact sweepGo_tabs_ne_nil now ttl s2.tabs s2 hne

/-- Witness for C8: with tab TTL 1 at time 1000, a sole tab idle since
time 0 survives the sweep unchanged, while a two-tab session keeps at
least one tab. -/
theorem reaper_spares_sole_tab_witness :
    sweepSessionTabs 1000 1 (⟨0, [("t1", freshTab 0 0)], some "t1", 0, 0⟩ : Session) =
      (⟨0, [("t1", freshTab 0 0)], some "t1", 0, 0⟩ : Session) ∧
    (sweepSessionTabs 1000 1
      (⟨0, [("t1", freshTab 0 0), ("t2", freshTab 0 0)], some "t1", 0, 0⟩ : Session)).tabs ≠ [] := by
  have h := reaper_spares_sole_tab 1000 1
    (⟨0, [("t1", freshTab 0 0)], some "t1", 0, 0⟩ : Session)
    (⟨0, [("t1", freshTab 0 0), ("t2", freshTab 0 0)], some "t1", 0, 0⟩ : Session)
    "t1" (freshTab 0 0) (by decide) (by decide)
  exact ⟨h.1, h.2⟩

/-- C10: closing a non-active tab while other tabs remain removes only
that tab: the active pointer, the engine context, the creation time and
every other tab's record are unchanged. -/
theorem close_inactive_tab_frame (s s' : Session) (tid : String) (now : Nat)
    (hact : s.active_tab_id ≠ some tid)
    (hrun : closeTabSession s tid now = Except.ok (some s')) :
    s'.tabs = removeD tid s.tabs ∧
    s'.active_tab_id = s.active_tab_id ∧
    s'.context = s.context ∧
    s'.created_at = s.created_at ∧
    (∀ k, k ≠ tid → lookupD k s'.tabs = lookupD k s.tabs) := by
  cases hlk : lookupD tid s.tabs with
  | none => rw [closeTabSession_absent s tid now hlk] at hrun; simp at hrun
  | some tb =>
    have hsome : (lookupD tid s.tabs).isSome = true := by rw [hlk]; rfl
    by_cases hemp : removeD tid s.tabs = []
    · rw [closeTabSession_cascade s tid now hsome hemp] at hrun
      simp at hrun
    · rw [closeTabSession_keep s tid now hsome hemp] at hrun
      simp only [Except.ok.injEq, Option.some.injEq] at hrun
      subst hrun
      refine ⟨rfl, ?_, rfl, rfl, ?_⟩
      · show (if s.active_tab_id = some tid then _ else _) = s.active_tab_id
        rw [if_neg hact]
      · intro k hk
        show lookupD k (removeD tid s.tabs) = lookupD k s.tabs
        exact lookupD_removeD_ne hk s.tabs

/-- Witness for C10: closing non-active `t2` of a two-tab session leaves
the active pointer on `t1` and `t1`'s record reachable unchanged. -/
theorem close_inactive_tab_frame_witness :
    (⟨0, [("t1", freshTab 0 0)], some "t1", 0, 5⟩ : Session).tabs =
      removeD "t2" [("t1", freshTab 0 0), ("t2", freshTab 0 0)] ∧
    (⟨0, [("t1", freshTab 0 0)], some "t1", 0, 5⟩ : Session).active_tab_id = some "t1" ∧
    lookupD "t1" (⟨0, [("t1", freshTab 0 0)], some "t1", 0, 5⟩ : Session).tabs =
      lookupD "t1" [("t1", freshTab 0 0), ("t2", freshTab 0 0)] := by
  have h := close_inactive_tab_frame
    (⟨0, [("t1", freshTab 0 0), ("t2", freshTab 0 0)], some "t1", 0, 0⟩ : Session)
    (⟨0, [("t1", freshTab 0 0)], some "t1", 0, 5⟩ : Session)
    "t2" 5 (by decide) (by decide)
  exact ⟨h.1, h.2.1, h.2.2.2.2 "t1" (by decide)⟩

/-- C9: the streaming connection's state-notification sender is
deduplicating — a request equal to the most recently sent state sends
nothing, so the sequence of states sent over one connection (which opens
with no state sent) never carries two equal consecutive values. -/
theorem websocket_state_dedup (reqs rest : List String) (s : String) :
    sendStateRun (some s) (s :: rest) = sendStateRun (some s) rest ∧
    List.Chain' (fun a b => a ≠ b) (sentStates reqs) := by
  constructor
  · simp [sendStateRun]
  · exact (sendStateRun_chain reqs none).1

end BrowserCore
